import Mathlib

/-!
Verification development for the anomaly-detection core of the
mental-health-on-google repository (src/src/anomaly_detection.py).

Modelling conventions:
* a date is an integer number of days since 1970-01-01 (pandas timestamps
  restricted to day granularity);
* a Series is a date-indexed list of rational values, in index order;
* pandas float arithmetic is embedded as exact rational arithmetic; where
  IEEE special values (NaN, infinities) are observable in a claim, an
  explicit extended type PyFloat is used with IEEE propagation rules;
* a z-score comparison abs (v - mu) / sigma > t over floats is encoded on
  exact rationals as: when the variance is 0 the quotient is NaN (v = mu,
  never above t) or +infinity (v different from mu, above every t); when the
  variance is positive it is equivalent to (v - mu)^2 > t^2 * variance for
  the nonnegative thresholds the source uses (sigma is the irrational
  square root of the variance, so the squared form keeps the computation
  rational).
-/

namespace MentalHealth

abbrev Date := Int

/-- Series: a date-indexed sequence of search-interest values for one term,
as handed to the detectors (pandas Series with a DatetimeIndex). -/
abbrev Series := List (Date × ℚ)

/-- Mean of a list of values, pandas Series.mean. The empty case divides by
zero and yields 0 under rational conventions (pandas yields NaN); callers
that can observe the NaN use sliceMean below instead. -/
def listMean (xs : List ℚ) : ℚ := xs.sum / xs.length

/-- Sample variance with ddof = 1, the square of pandas Series.std. For
lists of length 0 or 1 the rational convention gives 0, which the flag
functions below treat as the degenerate (NaN standard deviation) branch,
matching the float behaviour where no date is flagged. -/
def listVar (xs : List ℚ) : ℚ :=
  (xs.map (fun x => (x - listMean xs) ^ 2)).sum / ((xs.length : ℚ) - 1)

/-- Flag test of the standard and rolling z-score detectors: the float code
computes abs (x - mu) / sigma > t. Encoded exactly on rationals: variance 0
means sigma = 0, so the quotient is NaN when x = mu (never flagged) and
+infinity when x differs from mu (flagged for the nonnegative thresholds
used by the source); positive variance squares both sides. -/
def zscoreFlag (mu sig2 t x : ℚ) : Bool :=
  if sig2 = 0 then decide (x ≠ mu) else decide ((x - mu) ^ 2 > t ^ 2 * sig2)

/-- AnomalyDetector.zscore_detection: flags every observation whose global
z-score exceeds the threshold (source default 2.5); returns the flagged
sub-series. -/
def zscore_detection (s : Series) (t : ℚ) : Series :=
  let vals := s.map Prod.snd
  let mu := listMean vals
  let sig2 := listVar vals
  s.filter (fun p => zscoreFlag mu sig2 t p.2)

/-- Median of a list, the convention shared by pandas Series.median and
np.median: middle element of the sorted list, or the average of the two
middle elements for even length; 0 for the empty list (pandas yields NaN,
and the only use of the empty case below still produces an empty result,
as the float code does). -/
def medianOf (xs : List ℚ) : ℚ :=
  let ys := xs.mergeSort (fun a b => decide (a ≤ b))
  let n := xs.length
  if n = 0 then 0
  else if n % 2 = 1 then ys.getD (n / 2) 0
  else (ys.getD (n / 2 - 1) 0 + ys.getD (n / 2) 0) / 2

/-- AnomalyDetector.modified_zscore_detection: robust detection via the
median absolute deviation; 0.6745 * (x - median) / MAD, flagged when the
absolute score exceeds the threshold (source default 3.5). A zero MAD
returns the empty series explicitly, as in the source. -/
def modified_zscore_detection (s : Series) (t : ℚ) : Series :=
  let vals := s.map Prod.snd
  let m := medianOf vals
  let mad := medianOf (vals.map (fun v => |v - m|))
  if mad = 0 then []
  else s.filter (fun p => decide (|(6745 / 10000 : ℚ) * (p.2 - m) / mad| > t))

/-- Percentile with linear interpolation, np.percentile default: on the
sorted list ys of length n, the q-th percentile sits at fractional index
h = (n - 1) * q / 100 and interpolates between the neighbouring entries. -/
def percentileLinear (xs : List ℚ) (q : ℚ) : ℚ :=
  let ys := xs.mergeSort (fun a b => decide (a ≤ b))
  let n := xs.length
  if n = 0 then 0
  else
    let h : ℚ := ((n : ℚ) - 1) * q / 100
    let i : ℕ := Int.toNat ⌊h⌋
    let lo := ys.getD i 0
    let hi := ys.getD (min (i + 1) (n - 1)) 0
    lo + (h - (i : ℚ)) * (hi - lo)

/-- AnomalyDetector.isolation_forest_detection. The source fits an sklearn
IsolationForest with a fixed random_state, so the fitted forest assigns a
deterministic anomaly score to each value (identical values receive
identical scores); sklearn then sets offset_ to the contamination
percentile of the score samples and predicts -1 (anomalous) exactly for
the points whose score is strictly below that offset. The forest itself is
abstracted as the score function; the thresholding is embedded exactly. -/
def isolation_forest_detection (s : Series) (score : ℚ → ℚ)
    (contamination : ℚ) : Series :=
  let scores := (s.map Prod.snd).map score
  let offset := percentileLinear scores (100 * contamination)
  s.filter (fun p => decide (score p.2 < offset))

/-- Rolling mean and variance of pandas series.rolling(window = w,
center = true) with the default min_periods = w and ddof = 1: the window
with label i covers indices i + 1 + (w - 1) / 2 - w up to i + (w - 1) / 2
inclusive, and the statistic is defined (non-NaN) only when that window
lies fully inside the list. -/
def rollingMeanVar (vals : List ℚ) (w i : ℕ) : Option (ℚ × ℚ) :=
  let e := i + 1 + (w - 1) / 2
  if w ≤ e ∧ e ≤ vals.length then
    let win := (vals.drop (e - w)).take w
    some (listMean win, listVar win)
  else none

/-- Flag test at one position of the rolling detector: undefined rolling
statistics (series border) never flag, since every comparison against NaN
is False; otherwise the local z-score test applies. -/
def rollingFlag (vals : List ℚ) (w : ℕ) (t : ℚ) (i : ℕ) (x : ℚ) : Bool :=
  match rollingMeanVar vals w i with
  | none => false
  | some mv => zscoreFlag mv.1 mv.2 t x

/-- AnomalyDetector.rolling_statistics_detection: flags observations whose
local z-score against the centered rolling mean and standard deviation
(source defaults: window 12, threshold 2.5) exceeds the threshold. -/
def rolling_statistics_detection (s : Series) (w : ℕ) (t : ℚ) : Series :=
  ((s.enum).filter (fun ip => rollingFlag (s.map Prod.snd) w t ip.1 ip.2.2)).map
    Prod.snd

/-- Dates carried by a series (its pandas index). -/
def seriesDates (s : Series) : List Date := s.map Prod.fst

/-- Agreement count of the consensus step of detect_all_methods: the number
of detector outputs whose index contains the date (the source sums 1 over
the methods dict for each date). -/
def agreementCount (ms : List Series) (d : Date) : ℕ :=
  ms.countP (fun a => decide (d ∈ seriesDates a))

/-- Union of the dates flagged by any detector, the consensus_dates set of
detect_all_methods. -/
def consensusDates (ms : List Series) : Finset Date :=
  ms.foldr (fun a acc => (seriesDates a).toFinset ∪ acc) ∅

/-- High-confidence subset of detect_all_methods: the dates of the union
whose agreement count reaches the quorum. The source writes the quorum as
the literal 3; the parameter generalises that literal as the configurable
quorum of the specification, and detect_all_methods instantiates it at 3. -/
def high_confidence (ms : List Series) (quorum : ℕ) : Finset Date :=
  (consensusDates ms).filter (fun d => quorum ≤ agreementCount ms d)

/-- Result of detect_all_methods for one term: the four method outputs (in
dict order zscore, modified_zscore, isolation_forest, rolling_stats) and
the high-confidence date set. The source also stores the per-date counts;
those are recovered by agreementCount on the methods list. -/
structure TermAnomalies where
  methods : List Series
  hc : Finset Date
deriving DecidableEq

/-- AnomalyDetector.detect_all_methods with the source defaults: z-score
threshold 2.5, modified z-score threshold 3.5, contamination 0.05, rolling
window 12 with threshold 2.5, and quorum 3. The isolation forest is passed
as its deterministic score function (fixed random_state 42). -/
def detect_all_methods (s : Series) (score : ℚ → ℚ) : TermAnomalies :=
  let ms := [zscore_detection s (5 / 2),
             modified_zscore_detection s (7 / 2),
             isolation_forest_detection s score (1 / 20),
             rolling_statistics_detection s 12 (5 / 2)]
  ⟨ms, high_confidence ms 3⟩

/-! Baseline-shift analysis (analyze_covid_impact). -/

/-- Covid cutoff date 2020-03-01 as days since 1970-01-01. -/
def covid_start : Date := 18322

/-- Historical baseline start 2019-01-01 as days since 1970-01-01. -/
def pre_covid : Date := 17897

/-- Rows selected by df.loc of the pre-covid window: pandas label slicing
is inclusive of both endpoints, so the window is the closed interval from
pre_covid to covid_start. -/
def preSlice (s : Series) : Series :=
  s.filter (fun p => decide (pre_covid ≤ p.1) && decide (p.1 ≤ covid_start))

/-- Rows selected by df.loc of the during-covid window: from covid_start
inclusive, open-ended to the end of the series. -/
def duringSlice (s : Series) : Series :=
  s.filter (fun p => decide (covid_start ≤ p.1))

/-- PyFloat: a float value as observable in the report, an exact rational
or one of the IEEE special values. Signed zero is not modelled; it is not
observable in any claim. -/
inductive PyFloat where
  | fin : ℚ → PyFloat
  | inf : PyFloat
  | ninf : PyFloat
  | nan : PyFloat
deriving DecidableEq

/-- Finiteness of a PyFloat: true exactly on ordinary numeric values. -/
def PyFloat.isFinite : PyFloat → Bool
  | .fin _ => true
  | _ => false

/-- IEEE subtraction on PyFloat. -/
def pySub : PyFloat → PyFloat → PyFloat
  | .fin a, .fin b => .fin (a - b)
  | .nan, _ => .nan
  | _, .nan => .nan
  | .fin _, .inf => .ninf
  | .fin _, .ninf => .inf
  | .inf, .fin _ => .inf
  | .ninf, .fin _ => .ninf
  | .inf, .inf => .nan
  | .inf, .ninf => .inf
  | .ninf, .inf => .ninf
  | .ninf, .ninf => .nan

/-- IEEE division on PyFloat: a nonzero finite value divided by zero gives
a signed infinity, zero by zero gives NaN (numpy emits a warning, not an
exception, in both cases). -/
def pyDiv : PyFloat → PyFloat → PyFloat
  | .fin a, .fin b =>
      if b = 0 then
        if a > 0 then .inf else if a < 0 then .ninf else .nan
      else .fin (a / b)
  | .nan, _ => .nan
  | _, .nan => .nan
  | .fin _, .inf => .fin 0
  | .fin _, .ninf => .fin 0
  | .inf, .fin b => if b < 0 then .ninf else .inf
  | .ninf, .fin b => if b < 0 then .inf else .ninf
  | _, .inf => .nan
  | _, .ninf => .nan

/-- IEEE multiplication on PyFloat. -/
def pyMul : PyFloat → PyFloat → PyFloat
  | .fin a, .fin b => .fin (a * b)
  | .nan, _ => .nan
  | _, .nan => .nan
  | .inf, .fin b => if b > 0 then .inf else if b < 0 then .ninf else .nan
  | .ninf, .fin b => if b > 0 then .ninf else if b < 0 then .inf else .nan
  | .fin a, .inf => if a > 0 then .inf else if a < 0 then .ninf else .nan
  | .fin a, .ninf => if a > 0 then .ninf else if a < 0 then .inf else .nan
  | .inf, .inf => .inf
  | .inf, .ninf => .ninf
  | .ninf, .inf => .ninf
  | .ninf, .ninf => .inf

/-- Mean of a slice as pandas computes it: NaN on an empty selection,
otherwise the exact mean of the values. -/
def sliceMean (s : Series) : PyFloat :=
  if s.isEmpty then .nan else .fin (listMean (s.map Prod.snd))

/-- Maximum of a slice as pandas Series.max: NaN on an empty selection. -/
def sliceMax : Series → PyFloat
  | [] => .nan
  | p :: ps => .fin ((ps.map Prod.snd).foldl max p.2)

/-- Date of the first maximal value, pandas Series.idxmax; none models the
ValueError pandas raises on an empty selection. -/
def idxmaxDate : Series → Option Date
  | [] => none
  | p :: ps => some ((ps.foldl (fun best q => if q.2 > best.2 then q else best) p).1)

/-- Percent change of analyze_covid_impact, computed exactly as the source
writes it: ((during - pre) / pre) * 100, with IEEE propagation when the
pre mean is zero or either mean is NaN. -/
def percent_change (pre during : PyFloat) : PyFloat :=
  pyMul (pyDiv (pySub during pre) pre) (.fin 100)

/-- Per-term record of analyze_covid_impact. -/
structure CovidImpact where
  pre_covid_avg : PyFloat
  during_covid_avg : PyFloat
  pct_change : PyFloat
  peak_value : PyFloat
  peak_date : Option Date
deriving DecidableEq

/-- Body of the analyze_covid_impact loop for one present term. -/
def covid_impact_for (s : Series) : CovidImpact :=
  let pre := sliceMean (preSlice s)
  let during := sliceMean (duringSlice s)
  { pre_covid_avg := pre
    during_covid_avg := during
    pct_change := percent_change pre during
    peak_value := sliceMax (duringSlice s)
    peak_date := idxmaxDate (duringSlice s) }

/-- AnomalyDetector.analyze_covid_impact: one record per requested term
that is present as a column of the dataframe; absent terms are skipped. -/
def analyze_covid_impact (df : List (String × Series)) (terms : List String) :
    List (String × CovidImpact) :=
  terms.filterMap (fun t => (df.lookup t).map (fun s => (t, covid_impact_for s)))

/-! Event correlation (correlate_with_events) and the report assembler
(generate_report). -/

/-- Major events calendar of AnomalyDetector.__init__, in insertion
(chronological) order; dates as days since 1970-01-01:
2020-03-11, 2020-03-15, 2020-11-03, 2021-01-06, 2022-02-24, 2023-03-10,
2024-01-01. -/
def major_events : List (Date × String) :=
  [(18332, "WHO declares COVID-19 pandemic"),
   (18336, "US lockdowns begin"),
   (18569, "US election"),
   (18633, "US Capitol attack"),
   (19047, "Ukraine war begins"),
   (19426, "Silicon Valley Bank collapse"),
   (19723, "New year mental health awareness")]

/-- Row of the all_anomalies dataframe built in generate_report: one
high-confidence anomaly instance of one term. -/
structure AnomalyRow where
  date : Date
  term : String
  value : ℚ
deriving DecidableEq

/-- Columns of the anomalies dataframe after set_index on date: the two
remaining column labels, term and value. Row slicing keeps the column
labels unchanged, so nearby_anomalies.columns.tolist() in the source
always yields this constant list. -/
def anomalies_columns : List String := ["term", "value"]

/-- Window filter of correlate_with_events: the anomaly rows whose date
lies in the closed interval from event_date - window_days to
event_date + window_days (both comparisons in the source are inclusive). -/
def nearby_anomalies (rows : List AnomalyRow) (window_days : ℤ)
    (event_date : Date) : List AnomalyRow :=
  rows.filter (fun r =>
    decide (event_date - window_days ≤ r.date) &&
    decide (r.date ≤ event_date + window_days))

/-- Correlation record emitted by correlate_with_events for one event. -/
structure EventCorrelation where
  event : String
  event_date : Date
  anomaly_count : ℕ
  terms_affected : List String
deriving DecidableEq

/-- AnomalyDetector.correlate_with_events: walks the events calendar in
order and, for every event with at least one anomaly row in its window,
emits a correlation whose anomaly_count is the number of matching rows and
whose terms_affected is nearby_anomalies.columns.tolist(), i.e. the
constant dataframe column labels. -/
def correlate_with_events (rows : List AnomalyRow) (window_days : ℤ) :
    List EventCorrelation :=
  major_events.filterMap (fun ev =>
    let nearby := nearby_anomalies rows window_days ev.1
    if nearby.isEmpty then none
    else some ⟨ev.2, ev.1, nearby.length, anomalies_columns⟩)

/-- Report: the dict assembled by generate_report. analysis_date is the
wall-clock timestamp datetime.now().isoformat(), modelled as the integer
clock reading at the invocation. -/
structure Report where
  analysis_date : Int
  terms_analyzed : List String
  anomalies_by_term : List (String × ℕ × List Date)
  covid_impact : List (String × CovidImpact)
  event_correlations : List EventCorrelation
deriving DecidableEq

/-- Dates of a high-confidence set listed in ascending order, modelling
the iteration over the keys of the high_confidence dict. -/
def hcDatesList (hc : Finset Date) : List Date := hc.sort (· ≤ ·)

/-- Value of a series at a date, df.loc lookup used when generate_report
builds the all_anomalies rows (the date always comes from the series
index, so the default is never reached). -/
def valueAt (s : Series) (d : Date) : ℚ :=
  match s.find? (fun p => decide (p.1 = d)) with
  | some p => p.2
  | none => 0

/-- All_anomalies rows contributed by one analysed term: one row per
high-confidence date, carrying the term and the series value there. -/
def term_anomaly_rows (t : String) (s : Series) (hc : Finset Date) :
    List AnomalyRow :=
  (hcDatesList hc).map (fun d => ⟨d, t, valueAt s d⟩)

/-- AnomalyDetector.generate_report: runs detect_all_methods per requested
term present in the dataframe (absent terms are skipped by the membership
test of the loop), collects per-term summaries and all_anomalies rows,
attaches the covid-impact analysis, and correlates the accumulated rows
with the events calendar when any exist. now is the wall-clock reading of
datetime.now(); score is the fixed-seed isolation-forest score function. -/
def generate_report (now : Int) (df : List (String × Series))
    (terms : List String) (score : ℚ → ℚ) : Report :=
  let analyzed : List (String × Series × TermAnomalies) :=
    terms.filterMap (fun t =>
      (df.lookup t).map (fun s => (t, s, detect_all_methods s score)))
  let all_anomalies : List AnomalyRow :=
    (analyzed.map (fun e => term_anomaly_rows e.1 e.2.1 e.2.2.hc)).flatten
  { analysis_date := now
    terms_analyzed := terms
    anomalies_by_term :=
      analyzed.map (fun e => (e.1, e.2.2.hc.card, hcDatesList e.2.2.hc))
    covid_impact := analyze_covid_impact df terms
    event_correlations :=
      if all_anomalies.isEmpty then []
      else correlate_with_events all_anomalies 14 }

/-! Helper lemmas: the statistics of a constant series. -/

theorem map_snd_const {s : Series} {c : ℚ} (h : ∀ p ∈ s, p.2 = c) :
    s.map Prod.snd = List.replicate s.length c := by
  have hall : ∀ b ∈ s.map Prod.snd, b = c := by
    intro b hb
    rcases List.mem_map.mp hb with ⟨p, hp, rfl⟩
    exact h p hp
  simpa using List.eq_replicate_of_mem hall

theorem listMean_replicate {n : ℕ} (hn : n ≠ 0) (c : ℚ) :
    listMean (List.replicate n c) = c := by
  have hn' : (n : ℚ) ≠ 0 := Nat.cast_ne_zero.mpr hn
  simp only [listMean, List.sum_replicate, nsmul_eq_mul, List.length_replicate]
  exact mul_div_cancel_left₀ c hn'

theorem listVar_replicate (n : ℕ) (c : ℚ) : listVar (List.replicate n c) = 0 := by
  rcases Nat.eq_zero_or_pos n with rfl | h
  · simp [listVar]
  · simp [listVar, List.map_replicate, listMean_replicate (Nat.pos_iff_ne_zero.mp h),
      sub_self, List.sum_replicate]

theorem mergeSort_replicate (n : ℕ) (c : ℚ) (le : ℚ → ℚ → Bool) :
    (List.replicate n c).mergeSort le = List.replicate n c :=
  List.perm_replicate.mp (List.mergeSort_perm (List.replicate n c) le)

theorem getD_replicate_of_lt {n i : ℕ} (h : i < n) (c : ℚ) :
    (List.replicate n c).getD i 0 = c := by
  simp [List.getD_eq_getElem?_getD, List.getElem?_replicate, h]

theorem medianOf_replicate {n : ℕ} (hn : n ≠ 0) (c : ℚ) :
    medianOf (List.replicate n c) = c := by
  unfold medianOf
  simp only [mergeSort_replicate, List.length_replicate]
  rw [if_neg hn]
  have hpos : 0 < n := Nat.pos_of_ne_zero hn
  by_cases hodd : n % 2 = 1
  · rw [if_pos hodd, getD_replicate_of_lt (Nat.div_lt_self hpos one_lt_two)]
  · rw [if_neg hodd, getD_replicate_of_lt (by omega), getD_replicate_of_lt (by omega)]
    exact add_self_div_two c

theorem percentileLinear_replicate {n : ℕ} (hn : n ≠ 0) (c q : ℚ)
    (hq0 : 0 ≤ q) (hq1 : q ≤ 100) :
    percentileLinear (List.replicate n c) q = c := by
  unfold percentileLinear
  simp only [mergeSort_replicate, List.length_replicate]
  rw [if_neg hn]
  have hn1 : (1 : ℚ) ≤ (n : ℚ) := by exact_mod_cast Nat.one_le_iff_ne_zero.mpr hn
  have h0 : 0 ≤ ((n : ℚ) - 1) * q / 100 :=
    div_nonneg (mul_nonneg (by linarith) hq0) (by norm_num)
  have h1 : ((n : ℚ) - 1) * q / 100 ≤ (((n : ℤ) - 1 : ℤ) : ℚ) := by
    rw [div_le_iff₀ (by norm_num : (0 : ℚ) < 100)]
    push_cast
    nlinarith
  have hfl1 : ⌊((n : ℚ) - 1) * q / 100⌋ ≤ (n : ℤ) - 1 := by
    calc ⌊((n : ℚ) - 1) * q / 100⌋ ≤ ⌊(((n : ℤ) - 1 : ℤ) : ℚ)⌋ := Int.floor_le_floor h1
      _ = (n : ℤ) - 1 := Int.floor_intCast _
  have hi : Int.toNat ⌊((n : ℚ) - 1) * q / 100⌋ < n := by omega
  rw [getD_replicate_of_lt hi, getD_replicate_of_lt (by omega), sub_self, mul_zero, add_zero]

/-! Helper lemmas: each detector is empty on a constant series. -/

theorem zscore_const_empty {s : Series} {c : ℚ} (h : ∀ p ∈ s, p.2 = c) (t : ℚ) :
    zscore_detection s t = [] := by
  rcases eq_or_ne s [] with rfl | hs
  · rfl
  · have hn : s.length ≠ 0 := by simpa [List.length_eq_zero] using hs
    simp only [zscore_detection]
    rw [List.filter_eq_nil_iff]
    intro p hp
    simp [zscoreFlag, map_snd_const h, listMean_replicate hn, listVar_replicate, h p hp]

theorem modified_const_empty {s : Series} {c : ℚ} (h : ∀ p ∈ s, p.2 = c) (t : ℚ) :
    modified_zscore_detection s t = [] := by
  rcases eq_or_ne s [] with rfl | hs
  · simp [modified_zscore_detection]
  · have hn : s.length ≠ 0 := by simpa [List.length_eq_zero] using hs
    simp [modified_zscore_detection, map_snd_const h, List.map_replicate,
      medianOf_replicate hn, sub_self, abs_zero]

theorem isolation_const_empty {s : Series} {c : ℚ} (h : ∀ p ∈ s, p.2 = c)
    (score : ℚ → ℚ) {cont : ℚ} (h0 : 0 ≤ 100 * cont) (h1 : 100 * cont ≤ 100) :
    isolation_forest_detection s score cont = [] := by
  rcases eq_or_ne s [] with rfl | hs
  · rfl
  · have hn : s.length ≠ 0 := by simpa [List.length_eq_zero] using hs
    simp only [isolation_forest_detection, map_snd_const h, List.map_replicate]
    rw [List.filter_eq_nil_iff]
    intro p hp
    rw [percentileLinear_replicate hn (score c) (100 * cont) h0 h1]
    simp [h p hp]

theorem rollingFlag_replicate {n w i : ℕ} (hw : w ≠ 0) (c t : ℚ) :
    rollingFlag (List.replicate n c) w t i c = false := by
  simp only [rollingFlag, rollingMeanVar, List.length_replicate]
  by_cases hcond : w ≤ i + 1 + (w - 1) / 2 ∧ i + 1 + (w - 1) / 2 ≤ n
  · rw [if_pos hcond]
    simp only [List.drop_replicate, List.take_replicate]
    have hmin : w ⊓ (n - (i + 1 + (w - 1) / 2 - w)) = w := by omega
    rw [hmin, listMean_replicate hw, listVar_replicate]
    simp [zscoreFlag]
  · rw [if_neg hcond]

theorem rolling_const_empty {s : Series} {c : ℚ} (h : ∀ p ∈ s, p.2 = c)
    {w : ℕ} (hw : w ≠ 0) (t : ℚ) :
    rolling_statistics_detection s w t = [] := by
  simp only [rolling_statistics_detection, map_snd_const h]
  have hnil : (s.enum.filter
      (fun ip => rollingFlag (List.replicate s.length c) w t ip.1 ip.2.2)) = [] := by
    rw [List.filter_eq_nil_iff]
    intro ip hip
    have h2 : ip.2.2 = c := h ip.2 (List.snd_mem_of_mem_enum hip)
    rw [h2, rollingFlag_replicate hw]
    simp
  rw [hnil]
  rfl

theorem mem_consensusDates_of_count_pos {ms : List Series} {d : Date}
    (h : 0 < agreementCount ms d) : d ∈ consensusDates ms := by
  induction ms with
  | nil => simp [agreementCount] at h
  | cons a l ih =>
    simp only [agreementCount, List.countP_cons, decide_eq_true_eq] at h
    simp only [consensusDates, List.foldr_cons, Finset.mem_union, List.mem_toFinset]
    by_cases hd : d ∈ seriesDates a
    · exact Or.inl hd
    · rw [if_neg hd] at h
      exact Or.inr (ih (by simpa [agreementCount] using h))

/-! Claim theorems. -/

/-- C1: for every constant series (all values equal, hence zero variance),
each of the four detectors at its source defaults (standard z-score 2.5,
modified z-score 3.5, ensemble contamination 0.05, rolling window 12 with
threshold 2.5) returns an empty flagged set, and the consensus aggregator
consequently returns an empty anomaly-date union and an empty
high-confidence set. -/
theorem C1_constant_series_all_empty (s : Series) (c : ℚ) (score : ℚ → ℚ)
    (h : ∀ p ∈ s, p.2 = c) :
    zscore_detection s (5 / 2) = [] ∧
    modified_zscore_detection s (7 / 2) = [] ∧
    isolation_forest_detection s score (1 / 20) = [] ∧
    rolling_statistics_detection s 12 (5 / 2) = [] ∧
    consensusDates (detect_all_methods s score).methods = ∅ ∧
    (detect_all_methods s score).hc = ∅ := by
  have hz := zscore_const_empty h (5 / 2)
  have hm := modified_const_empty h (7 / 2)
  have hi := isolation_const_empty h score
    (by norm_num : (0 : ℚ) ≤ 100 * (1 / 20)) (by norm_num)
  have hr := rolling_const_empty h (by norm_num : (12 : ℕ) ≠ 0) (5 / 2)
  have hms : (detect_all_methods s score).methods =
      [zscore_detection s (5 / 2), modified_zscore_detection s (7 / 2),
        isolation_forest_detection s score (1 / 20),
        rolling_statistics_detection s 12 (5 / 2)] := rfl
  have hcd : consensusDates (detect_all_methods s score).methods = ∅ := by
    rw [hms, hz, hm, hi, hr]
    simp [consensusDates, seriesDates]
  have hhc : (detect_all_methods s score).hc = ∅ := by
    have hhc0 : (detect_all_methods s score).hc =
        high_confidence (detect_all_methods s score).methods 3 := rfl
    rw [hhc0]
    simp only [high_confidence]
    rw [hcd, Finset.filter_empty]
  exact ⟨hz, hm, hi, hr, hcd, hhc⟩

/-- Witness for C1 at the concrete constant series of three observations
with value 5. -/
theorem C1_witness :
    zscore_detection [((0 : Date), (5 : ℚ)), (1, 5), (2, 5)] (5 / 2) = [] ∧
    modified_zscore_detection [((0 : Date), (5 : ℚ)), (1, 5), (2, 5)] (7 / 2) = [] ∧
    isolation_forest_detection [((0 : Date), (5 : ℚ)), (1, 5), (2, 5)]
      (fun _ => 0) (1 / 20) = [] ∧
    rolling_statistics_detection [((0 : Date), (5 : ℚ)), (1, 5), (2, 5)] 12 (5 / 2) = [] ∧
    consensusDates
      (detect_all_methods [((0 : Date), (5 : ℚ)), (1, 5), (2, 5)] (fun _ => 0)).methods = ∅ ∧
    (detect_all_methods [((0 : Date), (5 : ℚ)), (1, 5), (2, 5)] (fun _ => 0)).hc = ∅ :=
  C1_constant_series_all_empty _ 5 (fun _ => 0) (by simp)

/-- C4: for any four detector outputs, the consensus aggregator gives each
date an agreement count equal to the number of the four outputs whose index
contains the date, and a date lies in the high-confidence subset iff its
agreement count is at least the quorum 3 (the source default). -/
theorem C4_agreement_count_and_quorum (A B C D : Series) (d : Date) :
    agreementCount [A, B, C, D] d =
      ((if d ∈ seriesDates A then 1 else 0) + (if d ∈ seriesDates B then 1 else 0) +
        (if d ∈ seriesDates C then 1 else 0) + (if d ∈ seriesDates D then 1 else 0)) ∧
    (d ∈ high_confidence [A, B, C, D] 3 ↔ 3 ≤ agreementCount [A, B, C, D] d) := by
  constructor
  · simp only [agreementCount, List.countP_cons, List.countP_nil, decide_eq_true_eq]
    by_cases hA : d ∈ seriesDates A <;> by_cases hB : d ∈ seriesDates B <;>
      by_cases hC : d ∈ seriesDates C <;> by_cases hD : d ∈ seriesDates D <;>
      simp [hA, hB, hC, hD]
  · simp only [high_confidence, Finset.mem_filter]
    constructor
    · exact fun hmem => hmem.2
    · intro h3
      refine ⟨mem_consensusDates_of_count_pos (by omega), h3⟩

/-- C7: consensus promotion is antitone in the quorum: for the same four
detector outputs, the high-confidence set at quorum 3 is contained in the
high-confidence set at quorum 2. -/
theorem C7_lower_quorum_superset (A B C D : Series) :
    high_confidence [A, B, C, D] 3 ⊆ high_confidence [A, B, C, D] 2 := by
  intro d hd
  simp only [high_confidence, Finset.mem_filter] at hd ⊢
  exact ⟨hd.1, by omega⟩

/-- C9: every detector returns a sub-series of its input: each flagged
(date, value) pair occurs, in order, in the input series, so flagged dates
are input dates and reported values are the input values there; the input
itself is an immutable value in this model, so no detector alters it. -/
theorem C9_detectors_return_subseries (s : Series) (score : ℚ → ℚ)
    (tz tm cont tr : ℚ) (w : ℕ) :
    (zscore_detection s tz).Sublist s ∧
    (modified_zscore_detection s tm).Sublist s ∧
    (isolation_forest_detection s score cont).Sublist s ∧
    (rolling_statistics_detection s w tr).Sublist s := by
  refine ⟨List.filter_sublist s, ?_, List.filter_sublist s, ?_⟩
  · simp only [modified_zscore_detection]
    split
    · exact List.nil_sublist s
    · exact List.filter_sublist s
  · simp only [rolling_statistics_detection]
    have hsub := List.Sublist.map Prod.snd
      (List.filter_sublist (p := fun ip => rollingFlag (s.map Prod.snd) w tr ip.1 ip.2.2)
        s.enum)
    rwa [List.enum_map_snd] at hsub

/-- C10: the pandas label slices of analyze_covid_impact are inclusive at
both ends, so the pre-period covers exactly the dates in the closed
interval from 2019-01-01 to 2020-03-01, the during-period covers exactly
the dates from 2020-03-01 on, and the two periods overlap at exactly the
cutoff date when it occurs in the series. -/
theorem C10_periods_overlap_at_cutoff (s : Series) (p : Date × ℚ) :
    (p ∈ preSlice s ↔ p ∈ s ∧ pre_covid ≤ p.1 ∧ p.1 ≤ covid_start) ∧
    (p ∈ duringSlice s ↔ p ∈ s ∧ covid_start ≤ p.1) ∧
    ((p ∈ preSlice s ∧ p ∈ duringSlice s) ↔ p ∈ s ∧ p.1 = covid_start) := by
  simp only [preSlice, duringSlice, List.mem_filter, Bool.and_eq_true, decide_eq_true_eq]
  refine ⟨trivial, trivial, ?_⟩
  constructor
  · rintro ⟨⟨hps, _, h2⟩, _, h3⟩
    exact ⟨hps, le_antisymm h2 h3⟩
  · rintro ⟨hps, he⟩
    have hb : pre_covid ≤ p.1 := by rw [he]; decide
    exact ⟨⟨hps, hb, le_of_eq he⟩, hps, ge_of_eq he⟩

/-- C5: the event correlator includes an anomaly row for an event exactly
when its date lies in the closed symmetric window around the event date;
in particular a row exactly window days away is included and one
window + 1 days away is not. -/
theorem C5_window_inclusive (rows : List AnomalyRow) (w : ℤ) (e : Date)
    (r : AnomalyRow) (hr : r ∈ rows) :
    r ∈ nearby_anomalies rows w e ↔ (e - w ≤ r.date ∧ r.date ≤ e + w) := by
  simp [nearby_anomalies, List.mem_filter, hr]

/-- Witness for C5 at the WHO event date 2020-03-11 (18332) with window
14: rows exactly 14 days before and after are included, a row 15 days
after is excluded. -/
theorem C5_witness :
    ((⟨18318, "a", 1⟩ : AnomalyRow) ∈ nearby_anomalies
      [⟨18318, "a", 1⟩, ⟨18346, "b", 2⟩, ⟨18347, "c", 3⟩] 14 18332) ∧
    ((⟨18346, "b", 2⟩ : AnomalyRow) ∈ nearby_anomalies
      [⟨18318, "a", 1⟩, ⟨18346, "b", 2⟩, ⟨18347, "c", 3⟩] 14 18332) ∧
    ¬ ((⟨18347, "c", 3⟩ : AnomalyRow) ∈ nearby_anomalies
      [⟨18318, "a", 1⟩, ⟨18346, "b", 2⟩, ⟨18347, "c", 3⟩] 14 18332) := by
  refine ⟨?_, ?_, ?_⟩
  · exact (C5_window_inclusive _ 14 18332 _ (by simp)).mpr (by decide)
  · exact (C5_window_inclusive _ 14 18332 _ (by simp)).mpr (by decide)
  · intro hmem
    exact absurd ((C5_window_inclusive _ 14 18332 _ (by simp)).mp hmem) (by decide)

/-- C2: evaluation of correlate_with_events at its failing input, a single
high-confidence anomaly instance (2020-03-11, depression, 95). The two
events within 14 days each produce a correlation with anomaly_count 1,
but terms_affected is the constant dataframe column-label list
nearby_anomalies.columns.tolist() = [term, value], not the distinct set
of affected terms, which would be the singleton depression. -/
theorem C2_terms_affected_is_column_labels :
    correlate_with_events [⟨18332, "depression", 95⟩] 14 =
      [⟨"WHO declares COVID-19 pandemic", 18332, 1, ["term", "value"]⟩,
        ⟨"US lockdowns begin", 18336, 1, ["term", "value"]⟩] ∧
    "depression" ∉ anomalies_columns := by
  constructor
  · rfl
  · simp [anomalies_columns]

/-- C3 counterexample: a series whose pre-period mean is exactly zero (one
pre-period observation of value 0) and whose during-period mean is 50
yields percent_change = +infinity, a propagated numeric IEEE value rather
than an explicit missing marker, refuting the claim that the analyzer
signals a missing value and never propagates an infinity or NaN. -/
theorem C3_counterexample :
    (analyze_covid_impact [("depression", [(17900, 0), (18400, 50)])]
      ["depression"]).map (fun e => e.2.pct_change) = [PyFloat.inf] := by
  norm_num [analyze_covid_impact, covid_impact_for, percent_change, sliceMean,
    preSlice, duringSlice, listMean, pySub, pyDiv, pyMul, pre_covid, covid_start,
    List.lookup, List.filterMap_cons, List.filter_cons, List.filter_nil,
    List.isEmpty, List.map_cons, List.map_nil, List.sum_cons, List.sum_nil]

/-- C3 amended: for every series whose pre-period mean is zero (including
an empty pre-period, whose mean the model folds to zero), the analyzer
raises no error on the percent-change path — the computation is total —
but the percent change is the IEEE-propagated result of the division, one
of +infinity, -infinity or NaN, never a finite number and never an
explicit missing marker. -/
theorem C3_zero_pre_mean_nonfinite (s : Series)
    (h0 : listMean ((preSlice s).map Prod.snd) = 0) :
    (covid_impact_for s).pct_change.isFinite = false := by
  simp only [covid_impact_for, percent_change, sliceMean]
  by_cases hp : (preSlice s).isEmpty
  · by_cases hd : (duringSlice s).isEmpty <;>
      simp [hp, hd, pySub, pyDiv, pyMul, PyFloat.isFinite]
  · by_cases hd : (duringSlice s).isEmpty
    · simp [hp, hd, h0, pySub, pyDiv, pyMul, PyFloat.isFinite]
    · simp only [hp, hd, Bool.false_eq_true, if_false, h0]
      rw [pySub, pyDiv]
      rcases lt_trichotomy (listMean ((duringSlice s).map Prod.snd) - 0) 0 with hlt | heq | hgt
      · rw [if_pos rfl, if_neg (by linarith), if_pos hlt]
        simp [pyMul, PyFloat.isFinite]
      · rw [if_pos rfl, if_neg (by linarith), if_neg (by linarith)]
        simp [pyMul, PyFloat.isFinite]
      · rw [if_pos rfl, if_pos hgt]
        simp [pyMul, PyFloat.isFinite]

/-- Witness for the amended C3 at the concrete series of the
counterexample: the pre-period mean is zero and the percent change is not
finite. -/
theorem C3_zero_pre_mean_witness :
    listMean ((preSlice [(17900, (0 : ℚ)), (18400, 50)]).map Prod.snd) = 0 ∧
    (covid_impact_for [(17900, (0 : ℚ)), (18400, 50)]).pct_change.isFinite = false := by
  have h0 : listMean ((preSlice [(17900, (0 : ℚ)), (18400, 50)]).map Prod.snd) = 0 := by
    simp [preSlice, pre_covid, covid_start, listMean]
  exact ⟨h0, C3_zero_pre_mean_nonfinite _ h0⟩

/-- C6 counterexample: two invocations of the report assembler on
identical input and configuration but at different wall-clock instants
produce different reports, because the report embeds the generation
timestamp datetime.now(); byte-identical output therefore fails as
stated. -/
theorem C6_counterexample :
    generate_report 0 [] [] (fun _ => 0) ≠ generate_report 1 [] [] (fun _ => 0) := by
  intro hEq
  exact absurd (congrArg Report.analysis_date hEq) (by decide)

/-- C6 amended: every report field other than the analysis_date timestamp
is a function of the dataset, term list and detector configuration alone:
two invocations at arbitrary clock readings agree once analysis_date is
set aside. -/
theorem C6_deterministic_but_timestamp (n1 n2 : Int) (df : List (String × Series))
    (terms : List String) (score : ℚ → ℚ) :
    { generate_report n1 df terms score with analysis_date := 0 } =
      { generate_report n2 df terms score with analysis_date := 0 } := rfl

/-- C8: a requested term absent from the dataset is skipped, not fatal:
the term still appears in the terms_analyzed list of the report (the
recorded request), gets no anomalies_by_term and no covid_impact entry,
and every present requested term still receives its full analysis entry. -/
theorem C8_absent_term_skipped (now : Int) (df : List (String × Series))
    (terms : List String) (score : ℚ → ℚ) (t : String)
    (ht : t ∈ terms) (habs : df.lookup t = none) :
    t ∈ (generate_report now df terms score).terms_analyzed ∧
    (∀ e ∈ (generate_report now df terms score).anomalies_by_term, e.1 ≠ t) ∧
    (∀ e ∈ (generate_report now df terms score).covid_impact, e.1 ≠ t) ∧
    (∀ t2 ∈ terms, ∀ s2, df.lookup t2 = some s2 →
      (t2, (detect_all_methods s2 score).hc.card,
        hcDatesList (detect_all_methods s2 score).hc) ∈
        (generate_report now df terms score).anomalies_by_term) := by
  refine ⟨ht, ?_, ?_, ?_⟩
  · intro e he
    simp only [generate_report, List.mem_map, List.mem_filterMap,
      Option.map_eq_some'] at he
    rcases he with ⟨a, ⟨t2, _, s2, hl2, rfl⟩, rfl⟩
    intro hteq
    dsimp only at hteq
    rw [hteq, habs] at hl2
    cases hl2
  · intro e he
    simp only [generate_report, analyze_covid_impact, List.mem_filterMap,
      Option.map_eq_some'] at he
    rcases he with ⟨t2, _, s2, hl2, rfl⟩
    intro hteq
    dsimp only at hteq
    rw [hteq, habs] at hl2
    cases hl2
  · intro t2 ht2 s2 hl2
    simp only [generate_report, List.mem_map, List.mem_filterMap,
      Option.map_eq_some']
    exact ⟨(t2, s2, detect_all_methods s2 score), ⟨t2, ht2, s2, hl2, rfl⟩, rfl⟩

/-- Witness for C8: the term depression is requested but absent from a
dataset holding only anxiety; it is recorded in terms_analyzed, receives
no per-term entries, and anxiety is still fully analysed. -/
theorem C8_witness :
    "depression" ∈ (generate_report 0 [("anxiety", [((0 : Date), (1 : ℚ))])]
      ["depression", "anxiety"] (fun _ => 0)).terms_analyzed ∧
    (∀ e ∈ (generate_report 0 [("anxiety", [((0 : Date), (1 : ℚ))])]
      ["depression", "anxiety"] (fun _ => 0)).anomalies_by_term, e.1 ≠ "depression") ∧
    (∀ e ∈ (generate_report 0 [("anxiety", [((0 : Date), (1 : ℚ))])]
      ["depression", "anxiety"] (fun _ => 0)).covid_impact, e.1 ≠ "depression") ∧
    (∀ t2 ∈ ["depression", "anxiety"], ∀ s2,
      ([("anxiety", [((0 : Date), (1 : ℚ))])] : List (String × Series)).lookup t2 =
        some s2 →
      (t2, (detect_all_methods s2 (fun _ => 0)).hc.card,
        hcDatesList (detect_all_methods s2 (fun _ => 0)).hc) ∈
        (generate_report 0 [("anxiety", [((0 : Date), (1 : ℚ))])]
          ["depression", "anxiety"] (fun _ => 0)).anomalies_by_term) :=
  C8_absent_term_skipped 0 _ _ (fun _ => 0) "depression" (by simp) (by simp [List.lookup])

end MentalHealth
